import Mathlib

/-!
Verification development for the AO3.py client library.

We build a shallow embedding of the rate-limited request dispatcher
(`src/ao3/client/_throttle.py`), the transport session
(`src/ao3/client/_client.py`), and the lazy entity / metadata layer
(`src/ao3/services/archiveWorks.py` and `src/ao3/works.py`), and prove or
refute the specified properties about them.

Time is modelled with rationals: the worker reads a wall clock that only
moves forward, and `time.sleep(d)` advances the clock by at least `d`.
Adversarial scheduler slack is threaded in as explicit nonnegative delay
inputs.
-/

namespace AO3

/-! ### Errors

Python exceptions carry a type and a message; we model an exception value
as a pair of a class name and a message string, so that re-raising the
same object preserves both. -/

structure PyError where
  className : String
  message : String
deriving DecidableEq, Repr

/-! ### The throttle worker loop (`process_queue` in `_throttle.py`)

The body of the worker's `while True` loop, per iteration:

  args, kwargs, result_event, result_container = call_queue.get(block=False)
  elapsed = time.time() - last_called
  if elapsed < interval: time.sleep(interval - elapsed)
  try:
      last_called = time.time()
      result = func(args, kwargs)
      result_container[0] = (result, None)
  except Exception as e:
      result_container[0] = (None, e)
  result_event.set()

A request is identified by a natural number (standing for its argument
tuple); the wrapped operation is a function from requests to
`Except PyError Nat`.  Each iteration consumes two adversarial delays:
`d1` is the time that passed between the previous `time.time()` write and this
iteration's first `time.time()` read (it includes the duration of the
previous `func` call), and `d2` is the extra time between the end of the
sleep and the `time.time()` that is stored in `last_called`. -/

structure WorkerState where
  /-- The wall clock at the end of the previous iteration. -/
  now : ℚ
  /-- The `last_called` variable of the closure (starts at `0.0`). -/
  lastCalled : ℚ
deriving DecidableEq, Repr

/-- The timestamp stored into `last_called` for one iteration: the clock is
read (`d1` later than `now`), the worker sleeps out the remaining part of
the interval if needed, and then `time.time()` is read again (`d2` later). -/
def callTimeOf (interval : ℚ) (s : WorkerState) (d1 d2 : ℚ) : ℚ :=
  let tRead := s.now + d1
  let elapsed := tRead - s.lastCalled
  let afterSleep := if elapsed < interval then tRead + (interval - elapsed) else tRead
  afterSleep + d2

/-- One iteration of the worker loop on request `r`: returns the new worker
state together with the invocation record (request, invocation timestamp,
outcome of `func`).  `last_called` is written before `func` runs, so it is
updated whether or not `func` raises. -/
def dispatchOne (interval : ℚ) (func : Nat → Except PyError Nat)
    (s : WorkerState) (r : Nat) (d1 d2 : ℚ) :
    WorkerState × Nat × ℚ × Except PyError Nat :=
  let ct := callTimeOf interval s d1 d2
  (⟨ct, ct⟩, r, ct, func r)

/-- The worker draining its queue: requests are popped in FIFO order
(`queue.Queue` is FIFO and `call_queue.get` takes the head), each is
dispatched by `dispatchOne`, and the loop continues regardless of whether
`func` succeeded or raised.  The input list pairs each queued request with
its two scheduler delays. -/
def processQueue (interval : ℚ) (func : Nat → Except PyError Nat) :
    WorkerState → List (Nat × ℚ × ℚ) → List (Nat × ℚ × Except PyError Nat)
  | _, [] => []
  | s, (r, d1, d2) :: rest =>
      let step := dispatchOne interval func s r d1 d2
      step.2 :: processQueue interval func step.1 rest

/-- The caller side (`wrapper` in `_throttle.py`) stores the outcome into
the shared one-slot container as `(result, None)` on success and
`(None, e)` on an exception. -/
def storeOutcome : Except PyError Nat → Option Nat × Option PyError
  | .ok v => (some v, none)
  | .error e => (none, some e)

/-- After `result_event.wait()` returns, the caller unpacks the container
and re-raises the exception if one was stored, else returns the result. -/
def wrapperDeliver (c : Option Nat × Option PyError) : Except PyError Nat :=
  match c.2 with
  | some e => .error e
  | none => .ok (c.1.getD 0)

/-- All delay pairs in a schedule are nonnegative. -/
def DelaysNonneg (entries : List (Nat × ℚ × ℚ)) : Prop :=
  ∀ e ∈ entries, 0 ≤ e.2.1 ∧ 0 ≤ e.2.2

instance (entries : List (Nat × ℚ × ℚ)) : Decidable (DelaysNonneg entries) :=
  inferInstanceAs (Decidable (∀ e ∈ entries, _ ∧ _))

/-- The invocation timestamps of a drained queue. -/
def invocationTimes (outs : List (Nat × ℚ × Except PyError Nat)) : List ℚ :=
  outs.map fun o => o.2.1

/-! ### Worker-spawn interleaving (`wrapper` and `process_queue` entry)

The caller side of `throttle_dispatch` runs

  call_queue.put(request)
  with lock:
      if not processing:
          thread = threading.Thread(target=process_queue, daemon=True)
          thread.start()

while the spawned worker's first action is

  with lock:
      processing = True

and its exit path is

  with lock:
      if call_queue.empty():
          processing = False
          break

We model the lock-bracketed regions as atomic events of a small-step
transition system and count the threads that are currently inside the
drain loop.  `thread.start()` only schedules the worker: the worker sets
`processing` in a later, separate event, which is exactly the code's
behaviour. -/

structure SpawnState where
  /-- Number of requests sitting in `call_queue`. -/
  queueLen : Nat
  /-- The `processing` flag of the closure. -/
  processing : Bool
  /-- Worker threads that have been started but have not yet executed
  their initial `processing = True` critical section. -/
  startedNotRunning : Nat
  /-- Worker threads currently inside the `while True` drain loop. -/
  draining : Nat
deriving DecidableEq, Repr

/-- The dispatcher state right after `throttle_dispatch` builds the
closure: empty queue, `processing = False`, no worker threads. -/
def spawnInit : SpawnState := ⟨0, false, 0, 0⟩

inductive SpawnEvent where
  /-- A caller executes `call_queue.put(request)`. -/
  | callerEnqueue
  /-- A caller executes `with lock: if not processing: thread.start()`. -/
  | callerCheckSpawn
  /-- A started worker thread executes `with lock: processing = True`
  and enters the drain loop. -/
  | workerBegin
  /-- A draining worker pops a request from the non-empty queue and
  services it. -/
  | workerPopAndCall
  /-- A draining worker sees the queue empty, executes
  `with lock: processing = False` and leaves the loop. -/
  | workerExitEmpty
deriving DecidableEq, Repr

/-- One atomic step of the interleaving; `none` when the event is not
enabled in the given state. -/
def spawnStep (s : SpawnState) : SpawnEvent → Option SpawnState
  | .callerEnqueue => some { s with queueLen := s.queueLen + 1 }
  | .callerCheckSpawn =>
      some (if s.processing then s
            else { s with startedNotRunning := s.startedNotRunning + 1 })
  | .workerBegin =>
      if s.startedNotRunning = 0 then none
      else some { s with
        startedNotRunning := s.startedNotRunning - 1
        draining := s.draining + 1
        processing := true }
  | .workerPopAndCall =>
      if s.draining = 0 ∨ s.queueLen = 0 then none
      else some { s with queueLen := s.queueLen - 1 }
  | .workerExitEmpty =>
      if s.draining = 0 ∨ s.queueLen ≠ 0 then none
      else some { s with draining := s.draining - 1, processing := false }

/-- Run a sequence of interleaving events from a state; fails if any
event is not enabled. -/
def runSpawn (s : SpawnState) : List SpawnEvent → Option SpawnState
  | [] => some s
  | e :: es => match spawnStep s e with
    | none => none
    | some s2 => runSpawn s2 es

/-! ### The transport session (`_client.py`)

`ClientSession` applies `@throttle_dispatch(1.0)` separately to `fetch`
and to `post`, so each of the two methods owns its own queue,
`last_called` timestamp and `processing` flag.  We model the session's
outbound-call timing: one shared wall clock, but one `last_called` per
wrapped operation. -/

/-- Which wrapped operation a session call goes through. -/
inductive SessionOp where
  | fetch
  | post
deriving DecidableEq, Repr

structure SessionThrottleState where
  /-- The shared wall clock. -/
  now : ℚ
  /-- `last_called` of the dispatcher wrapping `ClientSession.fetch`. -/
  fetchLastCalled : ℚ
  /-- `last_called` of the dispatcher wrapping `ClientSession.post`. -/
  postLastCalled : ℚ
deriving DecidableEq, Repr

/-- The per-operation `last_called` read by a session call. -/
def SessionThrottleState.lastOf (s : SessionThrottleState) : SessionOp → ℚ
  | .fetch => s.fetchLastCalled
  | .post => s.postLastCalled

/-- One throttled session call: the sleep decision uses only the called
operation's own `last_called`, and only that operation's `last_called` is
updated. -/
def sessionDispatch (interval : ℚ) (s : SessionThrottleState)
    (op : SessionOp) (d1 d2 : ℚ) : SessionThrottleState × ℚ :=
  let ct := callTimeOf interval ⟨s.now, s.lastOf op⟩ d1 d2
  (match op with
   | .fetch => { s with now := ct, fetchLastCalled := ct }
   | .post => { s with now := ct, postLastCalled := ct }, ct)

/-- A whole sequence of session calls, producing the invocation log
(operation, timestamp). -/
def runSession (interval : ℚ) :
    SessionThrottleState → List (SessionOp × ℚ × ℚ) → List (SessionOp × ℚ)
  | _, [] => []
  | s, (op, d1, d2) :: rest =>
      let step := sessionDispatch interval s op d1 d2
      (op, step.2) :: runSession interval step.1 rest

/-- The session state at process start: `last_called = 0.0` for both
wrapped operations, and a wall clock at some epoch time `t0`. -/
def sessionInit (t0 : ℚ) : SessionThrottleState := ⟨t0, 0, 0⟩

/-- The timestamps of the invocations of one operation, in log order. -/
def opTimes (op : SessionOp) : List (SessionOp × ℚ) → List ℚ
  | [] => []
  | (o, t) :: rest => if o = op then t :: opTimes op rest else opTimes op rest

/-! ### Response classification (`ClientSession._assert_response_success`)

The code runs, on the parsed document:

  if response.find("div", id "signin"):
      raise ClientNotAuthorizedError(...)
  elif response.find("h2", class "heading").text == "Error 404":
      raise ArchivePageNotFoundError(...)

A document is abstracted by whether `find` locates the sign-in `div`, and
by the text of the first `h2` of class `heading` if one exists.  When no
such `h2` exists, `find` returns `None` and `.text` raises Python's
`AttributeError`. -/

structure ResponseDoc where
  /-- Whether `find("div", id "signin")` returns a tag (truthy). -/
  hasSigninDiv : Bool
  /-- The `.text` of `find("h2", class "heading")`, or `none` if the
  document has no such heading element. -/
  headingText : Option String
deriving DecidableEq, Repr

inductive ClientError where
  /-- `ClientNotAuthorizedError` raised for restricted pages. -/
  | clientNotAuthorized (message : String)
  /-- `ArchivePageNotFoundError` raised for missing pages. -/
  | archivePageNotFound (message : String)
  /-- Python `AttributeError`, raised when `.text` is taken on `None`. -/
  | attributeError (message : String)
deriving DecidableEq, Repr

def signinMessage : String :=
  "Failed to fetch data; This page is restricted to registered users."

def notFoundMessage : String :=
  "Failed to fetch data; This page does not exist."

/-- `ClientSession._assert_response_success`, translated clause by
clause from the source. -/
def assertResponseSuccess (doc : ResponseDoc) : Except ClientError Unit :=
  if doc.hasSigninDiv then
    .error (.clientNotAuthorized signinMessage)
  else
    match doc.headingText with
    | none => .error (.attributeError "NoneType object has no attribute text")
    | some t =>
        if t = "Error 404" then .error (.archivePageNotFound notFoundMessage)
        else .ok ()

/-- The classification the spec describes: a pure three-way case split on
the two markers, accepting any document that carries neither.  (Written
from the spec's words, for comparison with `assertResponseSuccess`.) -/
def specClassify (doc : ResponseDoc) : Except ClientError Unit :=
  if doc.hasSigninDiv then
    .error (.clientNotAuthorized signinMessage)
  else if doc.headingText = some "Error 404" then
    .error (.archivePageNotFound notFoundMessage)
  else
    .ok ()

/-! ### The session singleton (`ClientSession.__new__` / `__init__` /
`instance`)

`ClientSession.__new__` stores a freshly allocated object into the class
attribute `_INSTANCE` when it is `None` and otherwise returns the stored
object; `__init__` returns immediately when the object already has a
`_session` attribute and otherwise gives it a fresh `CloudScraper`
transport and `_is_authenticated = False`.  `instance()` is `cls()`.

An object is identified by the allocation number of its transport handle;
the class-level state carries the `_INSTANCE` slot and an allocation
counter standing in for the Python heap. -/

structure SessionObj where
  /-- Identity of the `CloudScraper` transport held in `_session`. -/
  sessionHandle : Nat
  /-- The `_is_authenticated` flag. -/
  isAuthenticated : Bool
deriving DecidableEq, Repr

structure SessionClassState where
  /-- The `_INSTANCE` class attribute. -/
  instanceSlot : Option SessionObj
  /-- Next fresh transport handle (models allocation). -/
  nextHandle : Nat
deriving DecidableEq, Repr

/-- Evaluating `ClientSession()`: `__new__` followed by `__init__`.
Returns the (possibly updated) class state and the object handed to the
caller. -/
def clientSessionNew (c : SessionClassState) : SessionClassState × SessionObj :=
  match c.instanceSlot with
  | some obj => (c, obj)
  | none =>
      let obj : SessionObj := ⟨c.nextHandle, false⟩
      (⟨some obj, c.nextHandle + 1⟩, obj)

/-- `ClientSession.instance()` is defined in the source as `return cls()`. -/
def clientSessionInstance (c : SessionClassState) : SessionClassState × SessionObj :=
  clientSessionNew c

/-- External mutation of the live instance (e.g. authentication state
changing): replaces the stored object's fields in place. -/
def mutateInstance (c : SessionClassState) (f : SessionObj → SessionObj) :
    SessionClassState :=
  { c with instanceSlot := c.instanceSlot.map f }

/-! ### The work metadata record (`WorkMetadata` in `archiveWorks.py`)

Python object attributes live in a name-to-value dictionary, and
`WorkMetadata.update` manipulates them through `hasattr`/`setattr`:

  def update(self, data):
      for k, v in data.items():
          try:
              if hasattr(self, k):
                  setattr(self, k, v)
          except Exception as e:
              raise ValueError(...)

`setattr` on a plain dataclass never raises, so the `except` branch is
dead; unknown keys simply fail the `hasattr` test and are skipped.  We
model the attribute dictionary as an association list from field name to
a Python value.  (Python's `setattr` performs no type check, so a single
dynamic value type is the faithful model.) -/

inductive PyValue where
  | vStr (s : String)
  | vInt (n : Int)
  | vBool (b : Bool)
  | vNone
  | vListStr (xs : List String)
  | vListPair (xs : List (String × String))
deriving DecidableEq, Repr

/-- An attribute dictionary: field name to current value. -/
abbrev AttrDict : Type := List (String × PyValue)

/-- Python `hasattr(self, k)` on the record. -/
def hasattrFn (obj : AttrDict) (k : String) : Bool :=
  (obj.lookup k).isSome

/-- Python `setattr(self, k, v)` on an existing attribute: rebinds the
name in the dictionary. -/
def setattrFn (obj : AttrDict) (k : String) (v : PyValue) : AttrDict :=
  obj.map fun p => if p.1 = k then (k, v) else p

/-- `WorkMetadata.update`: iterate the mapping in order, writing the
value whenever the key names an existing attribute and skipping it
otherwise. -/
def workMetadataUpdate (obj : AttrDict) (data : List (String × PyValue)) :
    AttrDict :=
  data.foldl (fun o kv => if hasattrFn o kv.1 then setattrFn o kv.1 kv.2 else o) obj

/-- The `WorkMetadata` dataclass as constructed by
`WorkMetadata(ID=work_id, link=...)` in `ArchiveWork.__init__`, with the
declared defaults and the `__post_init__` empty-list defaults. -/
def mkWorkMetadata (workId : String) (link : String) : AttrDict :=
  [("ID", .vStr workId),
   ("title", .vStr ""),
   ("author", .vStr ""),
   ("link", .vStr link),
   ("summary", .vNone),
   ("language", .vStr ""),
   ("words", .vInt 0),
   ("chapters_published", .vInt 0),
   ("chapters_expected", .vNone),
   ("is_completed", .vBool false),
   ("kudos", .vInt 0),
   ("comments", .vInt 0),
   ("bookmarks", .vInt 0),
   ("hits", .vInt 0),
   ("published", .vNone),
   ("updated", .vNone),
   ("tags", .vListStr []),
   ("relationships", .vListPair []),
   ("characters", .vListStr []),
   ("fandoms", .vListStr []),
   ("categories", .vListStr []),
   ("ratings", .vListStr []),
   ("warnings", .vListStr []),
   ("series", .vNone),
   ("is_restricted", .vBool false)]

/-! ### The lazy entity, `archiveWorks.py` version (`ArchiveWork`)

  def reload(self):
      self._loaded = True
      response = self._session.fetch(self._data.link, soup=True)
      parser = WorkParser(response)
      self._data.update(parser.parse())

  def _ensure_loaded(self):
      if not self._loaded:
          self.reload()

Note the order: `_loaded` is set to `True` before the fetch is attempted.
The network fetch plus `WorkParser(...).parse()` is abstracted as one
oracle argument of type `Except PyError AttrDict`: an `error` means the
fetch or the page extraction raised, an `ok` is the parsed field mapping.
A `fetchCount` field instruments how many times the oracle was consulted
(one per attempted fetch). -/

structure ArchiveWork1 where
  /-- `_id`, fixed at construction. -/
  id : String
  /-- `_data`, the `WorkMetadata` record's attribute dictionary. -/
  data : AttrDict
  /-- `_loaded`. -/
  loaded : Bool
  /-- Instrumentation: number of fetches attempted so far. -/
  fetchCount : Nat
deriving DecidableEq, Repr

/-- `ArchiveWork.__init__(work_id, load=False)` in `archiveWorks.py`. -/
def mkArchiveWork1 (workId : String) : ArchiveWork1 :=
  ⟨workId,
   mkWorkMetadata workId ("https://archiveofourown.org/works/" ++ workId),
   false, 0⟩

/-- `ArchiveWork.reload` in `archiveWorks.py`: set the loaded flag, then
attempt the fetch; on success merge the parsed mapping via
`WorkMetadata.update`, on failure propagate the error (with the flag
already flipped and the metadata untouched). -/
def archiveWork1Reload (w : ArchiveWork1) (page : Except PyError AttrDict) :
    ArchiveWork1 × Option PyError :=
  let w1 := { w with loaded := true, fetchCount := w.fetchCount + 1 }
  match page with
  | .error e => (w1, some e)
  | .ok parsed => ({ w1 with data := workMetadataUpdate w1.data parsed }, none)

/-- `ArchiveWork._ensure_loaded` in `archiveWorks.py`. -/
def archiveWork1EnsureLoaded (w : ArchiveWork1) (page : Except PyError AttrDict) :
    ArchiveWork1 × Option PyError :=
  if w.loaded then (w, none) else archiveWork1Reload w page

/-- The shape shared by every typed accessor of `archiveWorks.py`'s
`ArchiveWork` (`title`, `author`, `words`, ...): call `_ensure_loaded`,
then read the named field of `_data`. -/
def archiveWork1Accessor (field : String) (w : ArchiveWork1)
    (page : Except PyError AttrDict) : ArchiveWork1 × Except PyError PyValue :=
  let r := archiveWork1EnsureLoaded w page
  match r.2 with
  | some e => (r.1, .error e)
  | none => (r.1, .ok ((r.1.data.lookup field).getD .vNone))

/-! ### The lazy entity, `works.py` version (`ArchiveWork`)

  def reload(self):
      response = self._session.fetch(...)          # may raise
      parsed_data = WorkParser(response).parse()   # may raise
      parsed_data["ID"] = self._id
      parsed_data["link"] = ...
      self._data = _ArchiveData.from_dictionary(parsed_data)
      self._is_loaded = True

Here `_data` starts out as `None` and the record plus the flag are only
written after every fallible step has succeeded.  (The `except HTTPError`
clause merely rewraps a 404 into a `ValueError` before re-raising; either
way the method raises before any state is written, so the combined
fetch-plus-parse oracle keeps that behaviour.)  The `title` property of
this version reads `self._data.title` WITHOUT calling `_ensure_loaded`,
unlike every other accessor of the class; on an unloaded entity `_data`
is `None` and the read raises `AttributeError`. -/

structure ArchiveWork2 where
  /-- `_id`, fixed at construction. -/
  id : String
  /-- `_data : Optional[_ArchiveData]`, starts as `None`. -/
  data : Option AttrDict
  /-- `_is_loaded`. -/
  isLoaded : Bool
  /-- Instrumentation: number of fetches attempted so far. -/
  fetchCount : Nat
deriving DecidableEq, Repr

/-- `ArchiveWork.__init__(work_id, session=None, lazy=True)` in
`works.py`, with `lazy=True`. -/
def mkArchiveWork2 (workId : String) : ArchiveWork2 :=
  ⟨workId, none, false, 0⟩

/-- The `_ArchiveData` defaults of `works.py` (note `author` defaults to
`"Anonymous"` there, unlike `WorkMetadata`). -/
def mkArchiveData2 (workId : String) : AttrDict :=
  setattrFn (setattrFn (mkWorkMetadata workId "") "author" (.vStr "Anonymous"))
    "link" (.vStr "")

/-- `_ArchiveData.from_dictionary(data)` is `cls(**data)`: every key must
name a declared field (otherwise Python raises `TypeError`), and the
named fields override the declared defaults. -/
def archiveDataFromDictionary (data : List (String × PyValue)) :
    Except PyError AttrDict :=
  if data.all (fun kv => hasattrFn (mkArchiveData2 "") kv.1) then
    .ok (data.foldl (fun o kv => setattrFn o kv.1 kv.2) (mkArchiveData2 ""))
  else
    .error ⟨"TypeError", "unexpected keyword argument"⟩

/-- `ArchiveWork.reload` in `works.py`: nothing is written unless the
fetch, the parse and the record construction all succeed, and then
`_data` and `_is_loaded` are written with the complete new record. -/
def archiveWork2Reload (w : ArchiveWork2) (page : Except PyError AttrDict) :
    ArchiveWork2 × Option PyError :=
  let w1 := { w with fetchCount := w.fetchCount + 1 }
  match page with
  | .error e => (w1, some e)
  | .ok parsed =>
      let full := parsed ++ [("ID", .vStr w.id),
        ("link", .vStr ("https://archiveofourown.org/works/" ++ w.id))]
      match archiveDataFromDictionary full with
      | .error e => (w1, some e)
      | .ok record => ({ w1 with data := some record, isLoaded := true }, none)

/-- `ArchiveWork._ensure_loaded` in `works.py`. -/
def archiveWork2EnsureLoaded (w : ArchiveWork2) (page : Except PyError AttrDict) :
    ArchiveWork2 × Option PyError :=
  if w.isLoaded then (w, none) else archiveWork2Reload w page

/-- The `title` property of `works.py`: `return self._data.title` with no
`_ensure_loaded` call.  No fetch can occur (the entity is returned
unchanged), and when `_data` is still `None` the attribute read raises
`AttributeError`. -/
def archiveWork2Title (w : ArchiveWork2) : ArchiveWork2 × Except PyError PyValue :=
  (w, match w.data with
      | none => .error ⟨"AttributeError",
          "NoneType object has no attribute title"⟩
      | some d => .ok ((d.lookup "title").getD .vNone))

/-- The shape shared by every other typed accessor of `works.py`'s
`ArchiveWork` (`author`, `words`, `tags`, ...): call `_ensure_loaded`,
then read the named field of `_data`. -/
def archiveWork2Accessor (field : String) (w : ArchiveWork2)
    (page : Except PyError AttrDict) : ArchiveWork2 × Except PyError PyValue :=
  let r := archiveWork2EnsureLoaded w page
  match r.2 with
  | some e => (r.1, .error e)
  | none => (r.1, .ok (((r.1.data.getD []).lookup field).getD .vNone))

/-! ## Helper lemmas -/

/-- Whatever the scheduler does, an iteration's invocation timestamp is at
least `interval` after the `last_called` it started from: either the
worker slept to exactly `last_called + interval`, or the elapsed check
already found at least `interval` gone by. -/
theorem callTimeOf_ge (interval : ℚ) (s : WorkerState) (d1 d2 : ℚ)
    (h2 : 0 ≤ d2) : s.lastCalled + interval ≤ callTimeOf interval s d1 d2 := by
  unfold callTimeOf
  dsimp only
  split <;> linarith

/-- The invocation timestamps of a drained queue form a chain in which
each element is at least `interval` after its predecessor, starting from
the worker's incoming `last_called`. -/
theorem processQueue_chain (interval : ℚ) (func : Nat → Except PyError Nat) :
    ∀ (entries : List (Nat × ℚ × ℚ)) (s : WorkerState), DelaysNonneg entries →
      List.Chain (fun a b => a + interval ≤ b) s.lastCalled
        (invocationTimes (processQueue interval func s entries))
  | [], _, _ => by simp [processQueue, invocationTimes]
  | (r, d1, d2) :: rest, s, hd => by
      have hhead : 0 ≤ d1 ∧ 0 ≤ d2 := hd (r, d1, d2) (by simp)
      have htail : DelaysNonneg rest := fun e he => hd e (by simp [he])
      simp only [processQueue, dispatchOne, invocationTimes, List.map_cons]
      exact List.Chain.cons (callTimeOf_ge interval s d1 d2 hhead.2)
        (processQueue_chain interval func rest ⟨_, _⟩ htail)

/-- An element heading a chain with gaps of at least `T ≥ 0` is below
everything in the chain. -/
theorem chain_gap_all_le (T : ℚ) (hT : 0 ≤ T) :
    ∀ (c : ℚ) (l : List ℚ), List.Chain (fun a b => a + T ≤ b) c l →
      ∀ x ∈ l, c ≤ x
  | _, [], _, x, hx => by simp at hx
  | c, b :: l, h, x, hx => by
      rcases List.chain_cons.mp h with ⟨hcb, hbl⟩
      rcases List.mem_cons.mp hx with rfl | hxl
      · linarith
      · have := chain_gap_all_le T hT b l hbl x hxl
        linarith

/-- A chain with gaps of at least `T ≥ 0` is sorted. -/
theorem chain_gap_sorted (T : ℚ) (hT : 0 ≤ T) :
    ∀ (c : ℚ) (l : List ℚ), List.Chain (fun a b => a + T ≤ b) c l →
      List.Sorted (· ≤ ·) l
  | _, [], _ => List.sorted_nil
  | c, b :: l, h => by
      rcases List.chain_cons.mp h with ⟨hcb, hbl⟩
      exact List.sorted_cons.mpr
        ⟨chain_gap_all_le T hT b l hbl, chain_gap_sorted T hT b l hbl⟩

/-- The drain loop pairs the queued requests, in order, with the outcomes
of `func` on them. -/
theorem processQueue_log (interval : ℚ) (func : Nat → Except PyError Nat) :
    ∀ (s : WorkerState) (entries : List (Nat × ℚ × ℚ)),
      (processQueue interval func s entries).map (fun o => (o.1, o.2.2))
        = entries.map (fun e => (e.1, func e.1))
  | _, [] => rfl
  | s, (r, d1, d2) :: rest => by
      simp only [processQueue, dispatchOne, List.map_cons]
      exact congrArg _ (processQueue_log interval func _ rest)

/-- Unpacking the container delivers the stored outcome unchanged: the
result for a success, the very same exception object for a failure. -/
theorem wrapperDeliver_storeOutcome (o : Except PyError Nat) :
    wrapperDeliver (storeOutcome o) = o := by
  cases o <;> rfl

/-- A session call's timestamp is at least `interval` after the called
operation's own `last_called`. -/
theorem sessionDispatch_ct_ge (interval : ℚ) (s : SessionThrottleState)
    (op : SessionOp) (d1 d2 : ℚ) (h2 : 0 ≤ d2) :
    s.lastOf op + interval ≤ (sessionDispatch interval s op d1 d2).2 := by
  have := callTimeOf_ge interval ⟨s.now, s.lastOf op⟩ d1 d2 h2
  cases op <;> exact this

/-- A `fetch` dispatch updates the fetch timestamp to its own call time
and leaves the post timestamp alone. -/
theorem sessionDispatch_fetch_parts (interval : ℚ) (s : SessionThrottleState)
    (d1 d2 : ℚ) :
    ((sessionDispatch interval s .fetch d1 d2).1.fetchLastCalled
        = (sessionDispatch interval s .fetch d1 d2).2)
    ∧ ((sessionDispatch interval s .fetch d1 d2).1.postLastCalled
        = s.postLastCalled) := ⟨rfl, rfl⟩

/-- A `post` dispatch updates the post timestamp to its own call time and
leaves the fetch timestamp alone. -/
theorem sessionDispatch_post_parts (interval : ℚ) (s : SessionThrottleState)
    (d1 d2 : ℚ) :
    ((sessionDispatch interval s .post d1 d2).1.postLastCalled
        = (sessionDispatch interval s .post d1 d2).2)
    ∧ ((sessionDispatch interval s .post d1 d2).1.fetchLastCalled
        = s.fetchLastCalled) := ⟨rfl, rfl⟩

theorem opTimes_cons_same (op : SessionOp) (t : ℚ) (rest : List (SessionOp × ℚ)) :
    opTimes op ((op, t) :: rest) = t :: opTimes op rest := by
  simp [opTimes]

theorem opTimes_cons_post_of_fetch (t : ℚ) (rest : List (SessionOp × ℚ)) :
    opTimes .post ((SessionOp.fetch, t) :: rest) = opTimes .post rest := by
  simp [opTimes]

theorem opTimes_cons_fetch_of_post (t : ℚ) (rest : List (SessionOp × ℚ)) :
    opTimes .fetch ((SessionOp.post, t) :: rest) = opTimes .fetch rest := by
  simp [opTimes]

/-- Each of the session's two wrapped operations keeps its own spacing
chain: fetch invocations are chained from `fetchLastCalled`, post
invocations from `postLastCalled`. -/
theorem runSession_chains (interval : ℚ) :
    ∀ (events : List (SessionOp × ℚ × ℚ)) (s : SessionThrottleState),
      (∀ e ∈ events, 0 ≤ e.2.1 ∧ 0 ≤ e.2.2) →
      List.Chain (fun a b => a + interval ≤ b) s.fetchLastCalled
        (opTimes .fetch (runSession interval s events))
      ∧ List.Chain (fun a b => a + interval ≤ b) s.postLastCalled
        (opTimes .post (runSession interval s events))
  | [], _, _ => by simp [runSession, opTimes]
  | (op, d1, d2) :: rest, s, hd => by
      have hhead : 0 ≤ d1 ∧ 0 ≤ d2 := hd (op, d1, d2) (by simp)
      have htail := fun e he => hd e (List.mem_cons_of_mem _ he)
      have hge := sessionDispatch_ct_ge interval s op d1 d2 hhead.2
      have ih := runSession_chains interval rest
        (sessionDispatch interval s op d1 d2).1 htail
      cases op with
      | fetch =>
          rw [(sessionDispatch_fetch_parts interval s d1 d2).1] at ih
          rw [(sessionDispatch_fetch_parts interval s d1 d2).2] at ih
          simp only [runSession]
          rw [opTimes_cons_same, opTimes_cons_post_of_fetch]
          exact ⟨List.chain_cons.mpr ⟨hge, ih.1⟩, ih.2⟩
      | post =>
          rw [(sessionDispatch_post_parts interval s d1 d2).1] at ih
          rw [(sessionDispatch_post_parts interval s d1 d2).2] at ih
          simp only [runSession]
          rw [opTimes_cons_same, opTimes_cons_fetch_of_post]
          exact ⟨ih.1, List.chain_cons.mpr ⟨hge, ih.2⟩⟩

/-- Rebinding an existing attribute makes a later lookup of that name
return the new value. -/
theorem lookup_setattrFn (k : String) (v : PyValue) :
    ∀ obj : AttrDict, hasattrFn obj k = true →
      (setattrFn obj k v).lookup k = some v
  | [], h => by simp [hasattrFn, List.lookup] at h
  | (a, b) :: rest, h => by
      unfold setattrFn
      rw [List.map_cons]
      by_cases hak : a = k
      · subst hak
        rw [if_pos rfl]
        simp [List.lookup]
      · have hka : (k == a) = false :=
          beq_eq_false_iff_ne.mpr fun hk => hak hk.symm
        have htail : hasattrFn rest k = true := by
          simpa [hasattrFn, List.lookup, hka] using h
        rw [if_neg hak]
        simpa [List.lookup, hka, setattrFn] using
          lookup_setattrFn k v rest htail

/-! ## Claims -/

/-- Claim C1: for every wrapped operation with interval `T` and every
burst of `N ≥ 1` queued calls, the worker ensures at least `T` seconds
have elapsed since the previous invocation before invoking the operation
again (sleeping out the remaining delta otherwise), so the invocation
timestamps are non-decreasing and any two consecutive invocations are at
least `T` seconds apart. -/
theorem dispatcher_spacing (interval : ℚ) (func : Nat → Except PyError Nat)
    (s : WorkerState) (entries : List (Nat × ℚ × ℚ))
    (hT : 0 ≤ interval) (hd : DelaysNonneg entries) :
    List.Chain (fun a b => a + interval ≤ b) s.lastCalled
      (invocationTimes (processQueue interval func s entries))
    ∧ List.Sorted (· ≤ ·)
        (invocationTimes (processQueue interval func s entries)) := by
  have hc := processQueue_chain interval func entries s hd
  exact ⟨hc, chain_gap_sorted interval hT _ _ hc⟩

/-- Witness for C1: a concrete three-request burst through a
one-second-interval worker. -/
theorem dispatcher_spacing_witness :
    (0:ℚ) ≤ 1 ∧ DelaysNonneg [(10, 0, 0), (11, 0, 0), (12, 0, 0)] ∧
    (List.Chain (fun a b => a + (1:ℚ) ≤ b) (0:ℚ)
      (invocationTimes (processQueue 1 (fun n => .ok n) ⟨5, 0⟩
        [(10, 0, 0), (11, 0, 0), (12, 0, 0)]))
    ∧ List.Sorted (· ≤ ·)
        (invocationTimes (processQueue 1 (fun n => .ok n) ⟨5, 0⟩
          [(10, 0, 0), (11, 0, 0), (12, 0, 0)]))) :=
  ⟨by norm_num, by decide,
   dispatcher_spacing 1 (fun n => .ok n) ⟨5, 0⟩ _ (by norm_num) (by decide)⟩

/-- Claim C2: the worker services dispatch requests in strict FIFO
arrival order — the invocation log lists exactly the queued requests in
their arrival order, each paired with the outcome of the wrapped
operation on it (one outcome per request) — and the caller-side
unpacking hands each stored outcome back unchanged to its caller. -/
theorem dispatcher_fifo_exactly_once (interval : ℚ)
    (func : Nat → Except PyError Nat) (s : WorkerState)
    (entries : List (Nat × ℚ × ℚ)) :
    ((processQueue interval func s entries).map (fun o => (o.1, o.2.2))
      = entries.map (fun e => (e.1, func e.1)))
    ∧ ∀ o : Except PyError Nat, wrapperDeliver (storeOutcome o) = o :=
  ⟨processQueue_log interval func s entries, wrapperDeliver_storeOutcome⟩

/-- Claim C3 (refuting the at-most-one-worker invariant): in the
interleaving where two callers each enqueue and run their spawn check
before either started worker thread has set the `processing` flag, both
callers see the flag false and both start a worker; the run ends in a
reachable state with TWO threads simultaneously inside the drain loop. -/
theorem throttle_two_workers_reachable :
    runSpawn spawnInit
      [.callerEnqueue, .callerCheckSpawn, .callerEnqueue, .callerCheckSpawn,
       .workerBegin, .workerBegin]
      = some ⟨2, true, 0, 2⟩ := by decide

/-- Claim C4: if the wrapped operation raises error `e` on a request, the
worker still records the dispatch timestamp (the new worker state carries
`callTimeOf` as its `last_called`, consuming rate budget), the queued
requests after it are still processed, and the blocked caller receives
exactly the same exception object (same class, same message) re-raised. -/
theorem dispatcher_error_resilient (interval : ℚ)
    (func : Nat → Except PyError Nat) (s : WorkerState) (r : Nat)
    (d1 d2 : ℚ) (post : List (Nat × ℚ × ℚ)) (e : PyError)
    (h : func r = .error e) :
    processQueue interval func s ((r, d1, d2) :: post)
      = (r, callTimeOf interval s d1 d2, Except.error e)
        :: processQueue interval func
             ⟨callTimeOf interval s d1 d2, callTimeOf interval s d1 d2⟩ post
    ∧ wrapperDeliver (storeOutcome (Except.error e)) = Except.error e := by
  constructor
  · simp [processQueue, dispatchOne, h]
  · rfl

/-- Witness for C4: a request on which the operation raises
`ValueError("boom")`. -/
theorem dispatcher_error_resilient_witness :
    ((fun _ : Nat => (Except.error ⟨"ValueError", "boom"⟩ : Except PyError Nat)) 7
       = Except.error ⟨"ValueError", "boom"⟩)
    ∧ (processQueue 1 (fun _ => .error ⟨"ValueError", "boom"⟩) ⟨5, 0⟩ [(7, 0, 0)]
      = (7, callTimeOf 1 ⟨5, 0⟩ 0 0, Except.error ⟨"ValueError", "boom"⟩)
        :: processQueue 1 (fun _ => .error ⟨"ValueError", "boom"⟩)
             ⟨callTimeOf 1 ⟨5, 0⟩ 0 0, callTimeOf 1 ⟨5, 0⟩ 0 0⟩ []
      ∧ wrapperDeliver (storeOutcome (Except.error ⟨"ValueError", "boom"⟩))
          = Except.error ⟨"ValueError", "boom"⟩) :=
  ⟨rfl, dispatcher_error_resilient 1 _ ⟨5, 0⟩ 7 0 0 [] ⟨"ValueError", "boom"⟩ rfl⟩

/-- Counterexample to C5 as stated: a document with neither the sign-in
marker nor ANY `h2.heading` element contains neither of the two markers,
yet classification does not accept it — `.text` on the absent heading
raises `AttributeError` instead of returning normally. -/
theorem classification_headingless_crashes :
    assertResponseSuccess ⟨false, none⟩
      = .error (.attributeError "NoneType object has no attribute text")
    ∧ (⟨false, none⟩ : ResponseDoc).hasSigninDiv = false
    ∧ (⟨false, none⟩ : ResponseDoc).headingText ≠ some "Error 404"
    ∧ assertResponseSuccess ⟨false, none⟩ ≠ .ok () := by
  refine ⟨rfl, rfl, by decide, by simp [assertResponseSuccess]⟩

/-- Claim C5 (amended): for every document that contains the sign-in
marker or at least one `h2.heading` element, classification is exactly
the spec's three-way case split — sign-in marker means
`ClientNotAuthorizedError`, else heading text `"Error 404"` means
`ArchivePageNotFoundError`, else the response is accepted. -/
theorem classification_amended (doc : ResponseDoc)
    (h : doc.hasSigninDiv = true ∨ doc.headingText.isSome) :
    assertResponseSuccess doc = specClassify doc := by
  obtain ⟨sg, ht⟩ := doc
  cases sg
  · cases ht with
    | none => simp at h
    | some t =>
        by_cases h4 : t = "Error 404" <;>
          simp [assertResponseSuccess, specClassify, h4]
  · rfl

/-- Witness for C5 (amended): an ordinary page with a work-title heading
is accepted by both the code and the spec's split. -/
theorem classification_amended_witness :
    ((⟨false, some "My Work Title"⟩ : ResponseDoc).hasSigninDiv = true
      ∨ (⟨false, some "My Work Title"⟩ : ResponseDoc).headingText.isSome)
    ∧ assertResponseSuccess ⟨false, some "My Work Title"⟩
        = specClassify ⟨false, some "My Work Title"⟩ :=
  ⟨Or.inr (by decide), classification_amended _ (Or.inr (by decide))⟩

/-- Claim C6: the session constructor/accessor is a stable singleton —
once an instance is stored, calling the constructor or `instance()`
returns that same object and leaves the class state (hence the stored
transport handle and authenticated-flag) completely unchanged, even after
arbitrary mutation of the instance's fields; and calling the constructor
twice from any starting state returns the same object the first call
produced, with no further state change. -/
theorem clientSession_singleton_stable :
    (∀ (c : SessionClassState) (obj : SessionObj), c.instanceSlot = some obj →
      clientSessionNew c = (c, obj) ∧ clientSessionInstance c = (c, obj)
      ∧ ∀ f, clientSessionNew (mutateInstance c f) = (mutateInstance c f, f obj))
    ∧ ∀ c0 : SessionClassState,
        clientSessionNew (clientSessionNew c0).1 = clientSessionNew c0 := by
  constructor
  · intro c obj h
    refine ⟨?_, ?_, ?_⟩
    · simp [clientSessionNew, h]
    · simp [clientSessionInstance, clientSessionNew, h]
    · intro f
      simp [clientSessionNew, mutateInstance, h]
  · intro c0
    cases hc : c0.instanceSlot with
    | some obj => simp [clientSessionNew, hc]
    | none => simp [clientSessionNew, hc]

/-- Witness for C6: a class state already holding an authenticated
instance is returned as is, with the flag intact. -/
theorem clientSession_singleton_stable_witness :
    ((⟨some ⟨0, true⟩, 1⟩ : SessionClassState).instanceSlot = some ⟨0, true⟩)
    ∧ clientSessionNew ⟨some ⟨0, true⟩, 1⟩ = (⟨some ⟨0, true⟩, 1⟩, ⟨0, true⟩)
    ∧ clientSessionInstance ⟨some ⟨0, true⟩, 1⟩ = (⟨some ⟨0, true⟩, 1⟩, ⟨0, true⟩) :=
  ⟨rfl, (clientSession_singleton_stable.1 _ _ rfl).1,
    (clientSession_singleton_stable.1 _ _ rfl).2.1⟩

/-- Counterexample to C7 as stated: on a fresh (unloaded) work from
`archiveWorks.py`, a reload whose fetch raises leaves the metadata
unchanged and propagates the error, but the loaded-flag has flipped from
`false` to `true` — the entity did NOT remain in its previous
loaded/unloaded state. -/
theorem reload_failure_flips_flag :
    (mkArchiveWork1 "123").loaded = false
    ∧ (archiveWork1Reload (mkArchiveWork1 "123")
        (.error ⟨"ConnectionError", "boom"⟩)).1.loaded = true
    ∧ (archiveWork1Reload (mkArchiveWork1 "123")
        (.error ⟨"ConnectionError", "boom"⟩)).1.data = (mkArchiveWork1 "123").data
    ∧ (archiveWork1Reload (mkArchiveWork1 "123")
        (.error ⟨"ConnectionError", "boom"⟩)).2 = some ⟨"ConnectionError", "boom"⟩ :=
  ⟨rfl, rfl, rfl, rfl⟩

/-- Claim C7 (amended): a failing reload leaves the metadata record
unchanged and raises the error to the caller in both entity versions;
in `works.py` the whole entity state is untouched on failure (fully
atomic), while in `archiveWorks.py` the loaded-flag is set before the
fetch, so a failed reload leaves the flag true; a successful
`archiveWorks.py` reload sets the flag and merges the parsed mapping. -/
theorem reload_failure_amended :
    (∀ (w : ArchiveWork1) (e : PyError),
      archiveWork1Reload w (.error e)
        = ({ w with loaded := true, fetchCount := w.fetchCount + 1 }, some e))
    ∧ (∀ (w : ArchiveWork1) (parsed : AttrDict),
      archiveWork1Reload w (.ok parsed)
        = ({ w with
              loaded := true
              fetchCount := w.fetchCount + 1
              data := workMetadataUpdate w.data parsed }, none))
    ∧ (∀ (w : ArchiveWork2) (e : PyError),
      archiveWork2Reload w (.error e)
        = ({ w with fetchCount := w.fetchCount + 1 }, some e)) :=
  ⟨fun _ _ => rfl, fun _ _ => rfl, fun _ _ => rfl⟩

/-- Claim C8 (evaluating the code at the failing input): reading `title`
on an unloaded `works.py` entity performs no fetch and raises
`AttributeError` instead of triggering a load, unlike the guarded
accessors (`author` on the same fresh entity performs exactly one fetch),
and unlike `archiveWorks.py`, where after any ensure-load every accessor
performs zero additional fetches. -/
theorem works_title_skips_ensure_loaded :
    archiveWork2Title (mkArchiveWork2 "12345")
      = (mkArchiveWork2 "12345",
         .error ⟨"AttributeError", "NoneType object has no attribute title"⟩)
    ∧ (mkArchiveWork2 "12345").fetchCount = 0
    ∧ (archiveWork2Accessor "author" (mkArchiveWork2 "12345") (.ok [])).1.fetchCount = 1
    ∧ (∀ (field : String) (w : ArchiveWork1) (page page2 : Except PyError AttrDict),
        (archiveWork1Accessor field (archiveWork1EnsureLoaded w page).1 page2).1.fetchCount
          = (archiveWork1EnsureLoaded w page).1.fetchCount) := by
  refine ⟨rfl, rfl, by decide, ?_⟩
  intro field w page page2
  by_cases hl : w.loaded
  · cases page2 <;>
      simp [archiveWork1Accessor, archiveWork1EnsureLoaded, archiveWork1Reload, hl]
  · cases page <;> cases page2 <;>
      simp [archiveWork1Accessor, archiveWork1EnsureLoaded, archiveWork1Reload, hl]

/-- Counterexample to C9 as stated: `fetch` and `post` are wrapped by two
separate dispatchers with separate `last_called` state, so a fetch at
time 5 followed immediately by a post at time 5 is a pair of consecutive
outbound HTTP calls separated by less than the one-second interval. -/
theorem session_mixed_ops_not_separated :
    runSession 1 (sessionInit 5) [(.fetch, 0, 0), (.post, 0, 0)]
      = [(.fetch, 5), (.post, 5)]
    ∧ ¬((5:ℚ) + 1 ≤ 5) := by
  constructor
  · norm_num [runSession, sessionDispatch, callTimeOf, sessionInit,
      SessionThrottleState.lastOf, opTimes]
  · norm_num

/-- Claim C9 (amended): the dispatcher interval is a global PER-OPERATION
rate limit — in any interleaving of session calls, the `fetch`
invocations are pairwise at least `interval` apart and non-decreasing,
and likewise the `post` invocations, each chained from its own
dispatcher's `last_called`; the two operations do not share a rate
budget. -/
theorem session_per_op_rate_limit (interval : ℚ)
    (events : List (SessionOp × ℚ × ℚ)) (s : SessionThrottleState)
    (hT : 0 ≤ interval) (hd : ∀ e ∈ events, 0 ≤ e.2.1 ∧ 0 ≤ e.2.2) :
    (List.Chain (fun a b => a + interval ≤ b) s.fetchLastCalled
        (opTimes .fetch (runSession interval s events))
      ∧ List.Sorted (· ≤ ·) (opTimes .fetch (runSession interval s events)))
    ∧ (List.Chain (fun a b => a + interval ≤ b) s.postLastCalled
        (opTimes .post (runSession interval s events))
      ∧ List.Sorted (· ≤ ·) (opTimes .post (runSession interval s events))) := by
  have hc := runSession_chains interval events s hd
  exact ⟨⟨hc.1, chain_gap_sorted interval hT _ _ hc.1⟩,
         ⟨hc.2, chain_gap_sorted interval hT _ _ hc.2⟩⟩

/-- Witness for C9 (amended): a concrete mixed fetch/post/fetch run. -/
theorem session_per_op_rate_limit_witness :
    (0:ℚ) ≤ 1
    ∧ (∀ e ∈ [((SessionOp.fetch : SessionOp), (0:ℚ), (0:ℚ)), (.post, 0, 0), (.fetch, 0, 0)],
        0 ≤ e.2.1 ∧ 0 ≤ e.2.2)
    ∧ ((List.Chain (fun a b => a + (1:ℚ) ≤ b) (sessionInit 5).fetchLastCalled
          (opTimes .fetch (runSession 1 (sessionInit 5)
            [(.fetch, 0, 0), (.post, 0, 0), (.fetch, 0, 0)]))
        ∧ List.Sorted (· ≤ ·) (opTimes .fetch (runSession 1 (sessionInit 5)
            [(.fetch, 0, 0), (.post, 0, 0), (.fetch, 0, 0)])))
      ∧ (List.Chain (fun a b => a + (1:ℚ) ≤ b) (sessionInit 5).postLastCalled
          (opTimes .post (runSession 1 (sessionInit 5)
            [(.fetch, 0, 0), (.post, 0, 0), (.fetch, 0, 0)]))
        ∧ List.Sorted (· ≤ ·) (opTimes .post (runSession 1 (sessionInit 5)
            [(.fetch, 0, 0), (.post, 0, 0), (.fetch, 0, 0)])))) :=
  ⟨by norm_num, by decide,
   session_per_op_rate_limit 1 _ (sessionInit 5) (by norm_num) (by decide)⟩

/-- Counterexample to C10 as stated: `update` given a mapping whose key
`"bogus"` is not a declared field does not fail — it silently ignores
the key and returns the record unchanged. -/
theorem update_ignores_unknown_key :
    workMetadataUpdate (mkWorkMetadata "1" "L") [("bogus", .vStr "x")]
      = mkWorkMetadata "1" "L"
    ∧ hasattrFn (mkWorkMetadata "1" "L") "bogus" = false := by
  constructor
  · rfl
  · decide

/-- Claim C10 (amended): `update` silently ignores unknown field names —
for a key that is not a declared field the record is returned unchanged
and no error is raised — and for every key that is a declared field the
field is overwritten with the supplied value. -/
theorem update_overwrites_known_skips_unknown (obj : AttrDict) (k : String)
    (v : PyValue) :
    (hasattrFn obj k = false → workMetadataUpdate obj [(k, v)] = obj)
    ∧ (hasattrFn obj k = true →
        (workMetadataUpdate obj [(k, v)]).lookup k = some v) := by
  constructor
  · intro h
    simp [workMetadataUpdate, h]
  · intro h
    simp [workMetadataUpdate, h]
    exact lookup_setattrFn k v obj h

/-- Witness for C10 (amended): an unknown key is skipped on the concrete
default record, and the declared `title` field is overwritten. -/
theorem update_overwrites_known_skips_unknown_witness :
    (hasattrFn (mkWorkMetadata "1" "L") "bogus2" = false
      ∧ workMetadataUpdate (mkWorkMetadata "1" "L") [("bogus2", .vStr "y")]
          = mkWorkMetadata "1" "L")
    ∧ (hasattrFn (mkWorkMetadata "1" "L") "title" = true
      ∧ (workMetadataUpdate (mkWorkMetadata "1" "L")
          [("title", .vStr "T")]).lookup "title" = some (.vStr "T")) :=
  ⟨⟨by decide,
    (update_overwrites_known_skips_unknown (mkWorkMetadata "1" "L") "bogus2"
      (.vStr "y")).1 (by decide)⟩,
   ⟨by decide,
    (update_overwrites_known_skips_unknown (mkWorkMetadata "1" "L") "title"
      (.vStr "T")).2 (by decide)⟩⟩

end AO3
